import Mathlib

/-!
Verification of the NeMo Forced Aligner (NFA) pipeline
(`tools/nemo_forced_aligner/align.py` and the core components it drives).

The configuration validation, manifest pre-pass and batch loop are embedded
from `align.py`.  The core components (`utils/viterbi_decoding.py`,
`utils/data_prep.py`, `utils/make_ctm_files.py`,
`utils/make_output_manifest.py`) are not part of the source tree; they are
modelled from the specification (sections 4.1-4.5), as indicated in each
doc comment.
-/

namespace NFA

/-- Modelled from the spec: standard CTC expansion of the target sequence
(missing `utils/viterbi_decoding.py`).  State `s` of the expanded sequence
`blank, y 0, blank, y 1, ..., blank` is a blank when `s` is even and the
real symbol `y (s / 2)` when `s` is odd. -/
def symId (blank : ℕ) (y : List ℕ) (s : ℕ) : ℕ :=
  if s % 2 = 1 then y.getD (s / 2) blank else blank

/-- Modelled from the spec: the skip-blank transition into state `s` (from
state `s - 2`) is allowed only when `s` is an odd (non-blank) position whose
symbol differs from the previous non-blank symbol
(missing `utils/viterbi_decoding.py`). -/
def skipAllowed (blank : ℕ) (y : List ℕ) (s : ℕ) : Bool :=
  s % 2 = 1 && 3 ≤ s && symId blank y s ≠ symId blank y (s - 2)

/-- Modelled from the spec: the dynamic-programming table of the Viterbi
decoder (missing `utils/viterbi_decoding.py`).  `score lp blank y t s` is
the best cumulative log-probability of having emitted the first `s` states
of the CTC expansion using the first `t + 1` frames, `⊥` standing for
minus infinity.  Transitions are stay, advance and (where allowed)
skip-blank; initially only states `0` and `1` are reachable. -/
def score (lp : ℕ → ℕ → ℚ) (blank : ℕ) (y : List ℕ) : ℕ → ℕ → WithBot ℚ
  | 0, s => if s ≤ 1 then ((lp 0 (symId blank y s) : ℚ) : WithBot ℚ) else ⊥
  | t + 1, s =>
      max (max (score lp blank y t s)
            (if 1 ≤ s then score lp blank y t (s - 1) else ⊥))
          (if skipAllowed blank y s = true then score lp blank y t (s - 2) else ⊥)
        + ((lp (t + 1) (symId blank y s) : ℚ) : WithBot ℚ)

/-- Score of the advance transition into state `s` at frame `t` (the score
of state `s - 1` one frame earlier, `⊥` when there is no previous state). -/
def advScore (lp : ℕ → ℕ → ℚ) (blank : ℕ) (y : List ℕ) (t s : ℕ) : WithBot ℚ :=
  if 1 ≤ s then score lp blank y t (s - 1) else ⊥

/-- Score of the skip-blank transition into state `s` at frame `t` (the
score of state `s - 2` one frame earlier, `⊥` when the skip is disallowed). -/
def skipScore (lp : ℕ → ℕ → ℚ) (blank : ℕ) (y : List ℕ) (t s : ℕ) : WithBot ℚ :=
  if skipAllowed blank y s = true then score lp blank y t (s - 2) else ⊥

/-- Modelled from the spec: the backpointer of the Viterbi decoder
(missing `utils/viterbi_decoding.py`).  `prevState lp blank y t s` is the
state at frame `t - 1` from which the optimal path reaches state `s` at
frame `t`; ties are broken by preferring the advance-symbol transition over
the stay transition. -/
def prevState (lp : ℕ → ℕ → ℚ) (blank : ℕ) (y : List ℕ) (t s : ℕ) : ℕ :=
  if 1 ≤ s ∧ score lp blank y (t - 1) s ≤ advScore lp blank y (t - 1) s
      ∧ skipScore lp blank y (t - 1) s ≤ advScore lp blank y (t - 1) s then
    s - 1
  else if skipAllowed blank y s = true
      ∧ advScore lp blank y (t - 1) s ≤ skipScore lp blank y (t - 1) s
      ∧ score lp blank y (t - 1) s ≤ skipScore lp blank y (t - 1) s then
    s - 2
  else s

/-- Modelled from the spec: the terminal cell of the decoding, the better of
the two valid end states (final blank `2 * U`, final real symbol
`2 * U - 1`) at the last frame (missing `utils/viterbi_decoding.py`). -/
def terminalState (lp : ℕ → ℕ → ℚ) (blank : ℕ) (y : List ℕ) (T : ℕ) : ℕ :=
  if score lp blank y (T - 1) (2 * y.length - 1)
      ≤ score lp blank y (T - 1) (2 * y.length) then
    2 * y.length
  else 2 * y.length - 1

/-- Backtrace from state `s` at frame `t` down to frame `0`, following the
backpointers; returns the states in frame order `0, 1, ..., t`. -/
def backtraceAux (bp : ℕ → ℕ → ℕ) : ℕ → ℕ → List ℕ
  | 0, s => [s]
  | t + 1, s => backtraceAux bp t (bp (t + 1) s) ++ [s]

/-- Modelled from the spec: the per-utterance Viterbi decoding (missing
`utils/viterbi_decoding.py`).  Returns the alignment path (one CTC state
per frame) when the target fits in the available frames
(`2 * U + 1 ≤ T`), and reports the alignment error (`none`) otherwise. -/
def viterbi_decoding_utt (lp : ℕ → ℕ → ℚ) (blank : ℕ) (y : List ℕ) (T : ℕ) :
    Option (List ℕ) :=
  if 2 * y.length + 1 ≤ T then
    some (backtraceAux (prevState lp blank y) (T - 1) (terminalState lp blank y T))
  else none

/-- One utterance of a decoding batch: its log-probability matrix, the
blank id, the target id sequence and the valid frame count. -/
structure UttInput where
  lp : ℕ → ℕ → ℚ
  blank : ℕ
  y : List ℕ
  T : ℕ

/-- Per-utterance outcome consumed by the downstream stages: either a
decoded alignment path or a recorded per-utterance alignment failure. -/
inductive UttOutcome where
  | aligned (path : List ℕ)
  | alignmentFailed
  deriving DecidableEq, Repr

/-- Decode one utterance, turning a decoder failure into the per-utterance
failure outcome instead of aborting. -/
def processUtt (u : UttInput) : UttOutcome :=
  match viterbi_decoding_utt u.lp u.blank u.y u.T with
  | some p => UttOutcome.aligned p
  | none => UttOutcome.alignmentFailed

/-- Modelled from the spec: batch decoding, `viterbi_decoding` applied to
every utterance of the batch independently
(missing `utils/viterbi_decoding.py`). -/
def processBatch (b : List UttInput) : List UttOutcome :=
  b.map processUtt

/-- One line of the output manifest for an utterance: whether alignment
succeeded (and CTM files are referenced) or the failure was recorded. -/
structure ManifestOutLine where
  success : Bool
  deriving DecidableEq, Repr

/-- Modelled from the spec: the manifest output line written for an
utterance records the failure when its decoding failed
(missing `utils/make_output_manifest.py`). -/
def write_manifest_out_line (o : UttOutcome) : ManifestOutLine :=
  match o with
  | UttOutcome.aligned _ => ⟨true⟩
  | UttOutcome.alignmentFailed => ⟨false⟩

lemma backtraceAux_length (bp : ℕ → ℕ → ℕ) (t s : ℕ) :
    (backtraceAux bp t s).length = t + 1 := by
  induction t generalizing s with
  | zero => rfl
  | succ t ih => simp [backtraceAux, ih]

lemma backtraceAux_last (bp : ℕ → ℕ → ℕ) (t s : ℕ) :
    (backtraceAux bp t s).getLast? = some s := by
  cases t with
  | zero => rfl
  | succ t => simp [backtraceAux, List.getLast?_concat]

lemma backtraceAux_chain (bp : ℕ → ℕ → ℕ) (hbp : ∀ t s, bp t s ≤ s) (t s : ℕ) :
    List.Chain' (· ≤ ·) (backtraceAux bp t s) := by
  induction t generalizing s with
  | zero => simp [backtraceAux]
  | succ t ih =>
      rw [backtraceAux, List.chain'_append]
      refine ⟨ih _, List.chain'_singleton s, ?_⟩
      intro x hx z hz
      rw [backtraceAux_last, Option.mem_def, Option.some_inj] at hx
      simp only [List.head?_cons, Option.mem_def, Option.some_inj] at hz
      subst hx
      subst hz
      exact hbp (t + 1) s

lemma prevState_le (lp : ℕ → ℕ → ℚ) (blank : ℕ) (y : List ℕ) (t s : ℕ) :
    prevState lp blank y t s ≤ s := by
  unfold prevState
  split
  · exact Nat.sub_le s 1
  · split
    · exact Nat.sub_le s 2
    · exact Nat.le_refl s

/-- Concrete batch element whose target fits its frame count. -/
def uttFits : UttInput := ⟨fun _ _ => 0, 0, [1], 3⟩

/-- Concrete batch element whose target is too long for its frame count. -/
def uttTooLong : UttInput := ⟨fun _ _ => 0, 0, [1, 2], 3⟩

/-- C1: for every valid input pair of a log-probability matrix with `T`
frames and a target sequence `y` with `2 * len y + 1 ≤ T`, the Viterbi
decoder returns an alignment path of length exactly `T` whose
symbol-position coordinate is monotonically non-decreasing and whose final
entry is a terminal state (the final blank position `2 * U` or the final
real symbol position `2 * U - 1`). -/
theorem viterbi_path_length_monotone_terminal
    (lp : ℕ → ℕ → ℚ) (blank : ℕ) (y : List ℕ) (T : ℕ)
    (h : 2 * y.length + 1 ≤ T) :
    ∃ p : List ℕ, viterbi_decoding_utt lp blank y T = some p ∧
      p.length = T ∧ List.Chain' (· ≤ ·) p ∧
      (p.getLast? = some (2 * y.length) ∨ p.getLast? = some (2 * y.length - 1)) := by
  refine ⟨backtraceAux (prevState lp blank y) (T - 1) (terminalState lp blank y T),
    ?_, ?_, ?_, ?_⟩
  · unfold viterbi_decoding_utt
    rw [if_pos h]
  · rw [backtraceAux_length]
    omega
  · exact backtraceAux_chain _ (prevState_le lp blank y) _ _
  · rw [backtraceAux_last]
    unfold terminalState
    split
    · exact Or.inl rfl
    · exact Or.inr rfl

/-- Witness for C1 at a concrete decoding problem (one symbol, three
frames). -/
theorem viterbi_path_length_monotone_terminal_witness :
    ∃ p : List ℕ, viterbi_decoding_utt (fun _ _ => (0 : ℚ)) 0 [1] 3 = some p ∧
      p.length = 3 ∧ List.Chain' (· ≤ ·) p ∧
      (p.getLast? = some 2 ∨ p.getLast? = some 1) :=
  viterbi_path_length_monotone_terminal (fun _ _ => 0) 0 [1] 3 (by decide)

/-- C2: an utterance whose target cannot fit in its frames
(`2 * len y + 1 > T`) yields a recorded per-utterance alignment failure;
this does not abort the batch: decoding still yields an outcome for every
utterance, every other utterance with a feasible target is still decoded to
an alignment path, and the failed utterance's manifest output line records
the failure. -/
theorem alignment_error_is_per_utterance
    (b : List UttInput) (i : ℕ) (u : UttInput)
    (hu : b.get? i = some u) (hbad : 2 * u.y.length + 1 > u.T) :
    (processBatch b).get? i = some UttOutcome.alignmentFailed ∧
    ((processBatch b).get? i).map write_manifest_out_line = some ⟨false⟩ ∧
    (processBatch b).length = b.length ∧
    (∀ j v, b.get? j = some v → 2 * v.y.length + 1 ≤ v.T →
      ∃ p, (processBatch b).get? j = some (UttOutcome.aligned p)) := by
  have hfail : (processBatch b).get? i = some UttOutcome.alignmentFailed := by
    rw [processBatch, List.get?_map, hu, Option.map_some']
    unfold processUtt viterbi_decoding_utt
    rw [if_neg (by omega)]
  refine ⟨hfail, ?_, ?_, ?_⟩
  · rw [hfail]
    rfl
  · exact List.length_map b processUtt
  · intro j v hv hfit
    refine ⟨backtraceAux (prevState v.lp v.blank v.y) (v.T - 1)
      (terminalState v.lp v.blank v.y v.T), ?_⟩
    rw [processBatch, List.get?_map, hv, Option.map_some']
    unfold processUtt viterbi_decoding_utt
    rw [if_pos hfit]

/-- Witness for C2 on a concrete two-utterance batch: the second target is
too long, the first still decodes. -/
theorem alignment_error_is_per_utterance_witness :
    (processBatch [uttFits, uttTooLong]).get? 1 = some UttOutcome.alignmentFailed ∧
    ((processBatch [uttFits, uttTooLong]).get? 1).map write_manifest_out_line
      = some ⟨false⟩ ∧
    (processBatch [uttFits, uttTooLong]).length = [uttFits, uttTooLong].length ∧
    (∀ j v, [uttFits, uttTooLong].get? j = some v → 2 * v.y.length + 1 ≤ v.T →
      ∃ p, (processBatch [uttFits, uttTooLong]).get? j = some (UttOutcome.aligned p)) :=
  alignment_error_is_per_utterance [uttFits, uttTooLong] 1 uttTooLong rfl (by decide)

/-- A timestamped span at one granularity: label, start time and end time
in seconds. -/
structure Span where
  label : String
  start : ℚ
  stop : ℚ
  deriving DecidableEq, Repr

/-- Modelled from the spec: boundary accumulation of one group of child
spans into one coarser span, whose start is the first child's start and
whose end is the last child's end (missing `utils/data_prep.py`). -/
def coarseSpan (g : List Span) : Span :=
  ⟨((g.head?).map Span.label).getD "",
    ((g.head?).map Span.start).getD 0,
    ((g.getLast?).map Span.stop).getD 0⟩

/-- Modelled from the spec: the segment aggregator, pure boundary
accumulation of each group of finer spans (missing `utils/data_prep.py`). -/
def aggregate (groups : List (List Span)) : List Span :=
  groups.map coarseSpan

/-- Adjacent spans neither gap nor overlap: each span's end time is exactly
the next span's start time. -/
def contiguous (l : List Span) : Prop :=
  List.Chain' (fun a b => a.stop = b.start) l

lemma coarseSpan_start (a : Span) (t : List Span) :
    (coarseSpan (a :: t)).start = a.start := rfl

lemma coarseSpan_stop (a : Span) (t : List Span) :
    (coarseSpan (a :: t)).stop = ((a :: t).getLast (List.cons_ne_nil a t)).stop := by
  simp [coarseSpan, List.getLast?_eq_getLast _ (List.cons_ne_nil a t)]

lemma aggregate_contiguous : ∀ groups : List (List Span),
    (∀ g ∈ groups, g ≠ []) → contiguous groups.join → contiguous (aggregate groups)
  | [], _, _ => List.chain'_nil
  | [_], _, _ => List.chain'_singleton _
  | g₁ :: g₂ :: gs, hne, hjoin => by
      have hg₁ : g₁ ≠ [] := hne g₁ (by simp)
      have hg₂ : g₂ ≠ [] := hne g₂ (by simp)
      have hjoin' : List.Chain' (fun a b => a.stop = b.start)
          (g₁ ++ (g₂ :: gs).join) := by
        simpa [contiguous] using hjoin
      rw [List.chain'_append] at hjoin'
      have htail : contiguous (aggregate (g₂ :: gs)) :=
        aggregate_contiguous (g₂ :: gs) (fun g hg => hne g (List.mem_cons_of_mem _ hg))
          hjoin'.2.1
      have hlink : (coarseSpan g₁).stop = (coarseSpan g₂).start := by
        obtain ⟨a₂, t₂, rfl⟩ := List.exists_cons_of_ne_nil hg₂
        have hx := hjoin'.2.2 (g₁.getLast hg₁)
          (Option.mem_def.mpr (List.getLast?_eq_getLast _ hg₁)) a₂ (by simp)
        obtain ⟨a₁, t₁, rfl⟩ := List.exists_cons_of_ne_nil hg₁
        rw [coarseSpan_stop, coarseSpan_start]
        exact hx
      show List.Chain' (fun a b => a.stop = b.start)
        (coarseSpan g₁ :: coarseSpan g₂ :: gs.map coarseSpan)
      exact List.chain'_cons.mpr ⟨hlink, htail⟩

/-- Concrete token spans used by the aggregation witness. -/
def tokA : Span := ⟨"a", 0, 1⟩

/-- Concrete token spans used by the aggregation witness. -/
def tokB : Span := ⟨"b", 1, 2⟩

/-- Concrete token spans used by the aggregation witness. -/
def tokC : Span := ⟨"c", 2, 3⟩

/-- C3: with minimum-duration enforcement disabled, the token spans
partition exactly into the word spans and the word spans into the segment
spans: every coarser span starts at its first child's start and ends at its
last child's end, and whenever the token spans have no gaps and no overlaps
neither do the word spans nor the segment spans. -/
theorem spans_partition_across_granularities
    (tokens : List Span) (wordGroups segGroups : List (List Span))
    (hwne : ∀ g ∈ wordGroups, g ≠ []) (hwjoin : wordGroups.join = tokens)
    (hsne : ∀ g ∈ segGroups, g ≠ []) (hsjoin : segGroups.join = aggregate wordGroups)
    (htok : contiguous tokens) :
    contiguous (aggregate wordGroups) ∧ contiguous (aggregate segGroups) ∧
    (∀ g ∈ wordGroups, ∀ a t, g = a :: t →
      (coarseSpan g).start = a.start ∧
      (coarseSpan g).stop = ((a :: t).getLast (List.cons_ne_nil a t)).stop) ∧
    (∀ g ∈ segGroups, ∀ a t, g = a :: t →
      (coarseSpan g).start = a.start ∧
      (coarseSpan g).stop = ((a :: t).getLast (List.cons_ne_nil a t)).stop) := by
  have hw : contiguous (aggregate wordGroups) :=
    aggregate_contiguous wordGroups hwne (by rw [hwjoin]; exact htok)
  have hs : contiguous (aggregate segGroups) :=
    aggregate_contiguous segGroups hsne (by rw [hsjoin]; exact hw)
  refine ⟨hw, hs, ?_, ?_⟩ <;>
    · intro g _ a t hg
      subst hg
      exact ⟨coarseSpan_start a t, coarseSpan_stop a t⟩

/-- Witness for C3 on three concrete token spans grouped into two words and
one segment. -/
theorem spans_partition_across_granularities_witness :
    contiguous (aggregate [[tokA, tokB], [tokC]]) ∧
    contiguous (aggregate [[coarseSpan [tokA, tokB], coarseSpan [tokC]]]) ∧
    (∀ g ∈ [[tokA, tokB], [tokC]], ∀ a t, g = a :: t →
      (coarseSpan g).start = a.start ∧
      (coarseSpan g).stop = ((a :: t).getLast (List.cons_ne_nil a t)).stop) ∧
    (∀ g ∈ [[coarseSpan [tokA, tokB], coarseSpan [tokC]]], ∀ a t, g = a :: t →
      (coarseSpan g).start = a.start ∧
      (coarseSpan g).stop = ((a :: t).getLast (List.cons_ne_nil a t)).stop) :=
  spans_partition_across_granularities [tokA, tokB, tokC]
    [[tokA, tokB], [tokC]] [[coarseSpan [tokA, tokB], coarseSpan [tokC]]]
    (by decide) rfl (by decide) rfl
    (by simp [contiguous, tokA, tokB, tokC, List.chain'_cons])

/-- Modelled from the spec: minimum-duration enforcement on one span inside
the utterance interval [0, uttEnd]: a span shorter than the configured
floor d is grown symmetrically from its midpoint outward until its duration
is d, clipped at the utterance boundaries 0 and uttEnd
(missing `utils/make_ctm_files.py`). -/
def enforceMinDuration (d uttEnd : ℚ) (sp : Span) : Span :=
  if sp.stop - sp.start < d then
    ⟨sp.label, max ((sp.start + sp.stop) / 2 - d / 2) 0,
      min ((sp.start + sp.stop) / 2 + d / 2) uttEnd⟩
  else sp

/-- C4: with floor d, every enforced span has duration at least d whenever
the grown interval stays inside the utterance boundaries; a span of
duration 0.1 s centered at t = 2.0 s with d = 0.5 becomes exactly
[1.75, 2.25] absent boundary clipping; and two adjacent (contiguous) spans
are permitted to overlap after enforcement. -/
theorem minimum_duration_enforced :
    (∀ (d uttEnd : ℚ) (sp : Span),
      0 ≤ (sp.start + sp.stop) / 2 - d / 2 →
      (sp.start + sp.stop) / 2 + d / 2 ≤ uttEnd →
      d ≤ (enforceMinDuration d uttEnd sp).stop - (enforceMinDuration d uttEnd sp).start) ∧
    enforceMinDuration (1 / 2) 10 ⟨"u", 39 / 20, 41 / 20⟩ = ⟨"u", 7 / 4, 9 / 4⟩ ∧
    ((⟨"a", 2, 21 / 10⟩ : Span).stop = (⟨"b", 21 / 10, 11 / 5⟩ : Span).start ∧
      (enforceMinDuration (1 / 2) 10 ⟨"b", 21 / 10, 11 / 5⟩).start
        < (enforceMinDuration (1 / 2) 10 ⟨"a", 2, 21 / 10⟩).stop) := by
  refine ⟨?_, ?_, ?_, ?_⟩
  · intro d uttEnd sp hlo hhi
    unfold enforceMinDuration
    split
    · show d ≤ min ((sp.start + sp.stop) / 2 + d / 2) uttEnd
        - max ((sp.start + sp.stop) / 2 - d / 2) 0
      rw [max_eq_left hlo, min_eq_left hhi]
      linarith
    · next h => exact le_of_not_lt h
  · rw [enforceMinDuration]
    rw [if_pos (by norm_num)]
    simp only [Span.mk.injEq]
    refine ⟨trivial, ?_, ?_⟩
    · rw [max_eq_left (by norm_num)]
      norm_num
    · rw [min_eq_left (by norm_num)]
      norm_num
  · norm_num
  · rw [enforceMinDuration, enforceMinDuration, if_pos (by norm_num), if_pos (by norm_num)]
    show max (((21 : ℚ) / 10 + 11 / 5) / 2 - (1 / 2) / 2) 0
      < min (((2 : ℚ) + 21 / 10) / 2 + (1 / 2) / 2) 10
    rw [max_eq_left (by norm_num), min_eq_left (by norm_num)]
    norm_num

/-- Witness for C4's duration bound at the concrete span of the spec's
end-to-end scenario. -/
theorem minimum_duration_enforced_witness :
    (1 : ℚ) / 2 ≤ (enforceMinDuration (1 / 2) 10 ⟨"u", 39 / 20, 41 / 20⟩).stop
      - (enforceMinDuration (1 / 2) 10 ⟨"u", 39 / 20, 41 / 20⟩).start :=
  minimum_duration_enforced.1 (1 / 2) 10 ⟨"u", 39 / 20, 41 / 20⟩
    (by norm_num) (by norm_num)

/-- C8: the pipeline is deterministic (batch decoding is a pure function of
its inputs: equal inputs give equal outcome lists), and the decoder breaks
ties by preferring the advance-symbol transition over the stay transition:
whenever the advance transition's score is at least the stay and skip
scores (in particular when advance and stay tie), the backpointer chooses
the advance transition. -/
theorem decoding_deterministic_and_ties_prefer_advance :
    (∀ b₁ b₂ : List UttInput, b₁ = b₂ → processBatch b₁ = processBatch b₂) ∧
    (∀ (lp : ℕ → ℕ → ℚ) (blank : ℕ) (y : List ℕ) (t s : ℕ),
      1 ≤ s →
      score lp blank y (t - 1) s ≤ advScore lp blank y (t - 1) s →
      skipScore lp blank y (t - 1) s ≤ advScore lp blank y (t - 1) s →
      prevState lp blank y t s = s - 1) := by
  constructor
  · intro b₁ b₂ h
    rw [h]
  · intro lp blank y t s h1 h2 h3
    unfold prevState
    rw [if_pos ⟨h1, h2, h3⟩]

/-- Witness for C8 at a concrete tie: with a constant log-probability
matrix, stay and advance scores tie at frame 1, and the backpointer picks
the advance transition. -/
theorem decoding_deterministic_and_ties_prefer_advance_witness :
    prevState (fun _ _ => (0 : ℚ)) 0 [1, 2] 1 1 = 0 :=
  decoding_deterministic_and_ties_prefer_advance.2 (fun _ _ => 0) 0 [1, 2] 1 1
    (by decide) (by decide) (by decide)

/-- Modelled from the spec: the run-level output timestep duration,
computed from the model's window stride and downsampling factor
(missing `utils/data_prep.py`). -/
def computeTimestepDuration (windowStride : ℚ) (downsampleFactor : ℕ) : ℚ :=
  windowStride * downsampleFactor

/-- Modelled from the spec: how `get_batch_variables` handles the incoming
run-level `output_timestep_duration`: computed on the first batch (when the
incoming value is `none`), returned unchanged on every later batch
(missing `utils/data_prep.py`). -/
def resolveTimestepDuration (windowStride : ℚ) (downsampleFactor : ℕ) :
    Option ℚ → ℚ
  | none => computeTimestepDuration windowStride downsampleFactor
  | some d => d

/-- The timestep durations used by the successive batches of a run,
threading the run-level value through the batch loop the way `main`
(`align.py` lines 216-236) does, starting from `none`. -/
def batchLoopDurations (windowStride : ℚ) (downsampleFactor : ℕ) :
    ℕ → Option ℚ → List ℚ
  | 0, _ => []
  | n + 1, cur =>
      resolveTimestepDuration windowStride downsampleFactor cur ::
        batchLoopDurations windowStride downsampleFactor n
          (some (resolveTimestepDuration windowStride downsampleFactor cur))

lemma batchLoopDurations_frozen (windowStride : ℚ) (downsampleFactor : ℕ) :
    ∀ (n : ℕ) (d : ℚ),
      batchLoopDurations windowStride downsampleFactor n (some d) = List.replicate n d
  | 0, _ => rfl
  | n + 1, d => by
      rw [batchLoopDurations, resolveTimestepDuration,
        batchLoopDurations_frozen windowStride downsampleFactor n d,
        List.replicate_succ]

/-- C5: the run-level `output_timestep_duration` is computed exactly once,
during the first batch, and every subsequent batch of the run uses exactly
the value established then: each of the n batches of a run starting with
the unset value uses the duration computed from the model, and the first
batch is the one that establishes it. -/
theorem output_timestep_duration_frozen
    (windowStride : ℚ) (downsampleFactor : ℕ) (n : ℕ) :
    (∀ d ∈ batchLoopDurations windowStride downsampleFactor n none,
      d = computeTimestepDuration windowStride downsampleFactor) ∧
    (1 ≤ n → (batchLoopDurations windowStride downsampleFactor n none).head?
      = some (computeTimestepDuration windowStride downsampleFactor)) := by
  cases n with
  | zero =>
      refine ⟨?_, ?_⟩
      · intro d hd
        cases hd
      · intro h
        omega
  | succ n =>
      constructor
      · intro d hd
        rw [batchLoopDurations, resolveTimestepDuration,
          batchLoopDurations_frozen] at hd
        rcases List.mem_cons.mp hd with h | h
        · exact h
        · exact List.eq_of_mem_replicate h
      · intro _
        rw [batchLoopDurations, resolveTimestepDuration]
        rfl

/-- Witness for C5 on a three-batch run with a concrete stride. -/
theorem output_timestep_duration_frozen_witness :
    computeTimestepDuration 1 2 = computeTimestepDuration 1 2 ∧
    (batchLoopDurations 1 2 3 none).head? = some (computeTimestepDuration 1 2) :=
  ⟨(output_timestep_duration_frozen 1 2 3).1 (computeTimestepDuration 1 2)
      (List.mem_cons_self _ _),
    (output_timestep_duration_frozen 1 2 3).2 (by omega)⟩

/-- CTM file configuration, mirroring `CTMFileConfig` in `align.py`. -/
structure CTMFileConfig where
  remove_blank_tokens : Bool
  deriving DecidableEq, Repr

/-- ASS file configuration, mirroring `ASSFileConfig` in `align.py`. -/
structure ASSFileConfig where
  fontsize : ℤ
  marginv : ℤ
  deriving DecidableEq, Repr

/-- The aligner configuration, mirroring `AlignmentConfig` in `align.py`
(floats embedded as rationals, optional strings as `Option String`). -/
structure AlignmentConfig where
  pretrained_name : Option String
  model_path : Option String
  manifest_filepath : Option String
  output_dir : Option String
  align_using_pred_text : Bool
  transcribe_device : Option String
  viterbi_device : Option String
  batch_size : ℤ
  additional_ctm_grouping_separator : Option String
  minimum_timestamp_duration : ℚ
  audio_filepath_parts_in_utt_id : ℤ
  save_output_file_formats : List String
  ctm_file_config : CTMFileConfig
  ass_file_config : ASSFileConfig

/-- The separator check of `main` (`align.py` line 145) in isolation:
`true` when the check raises no error. -/
def separatorCheckPasses (sep : Option String) : Bool :=
  !(sep == some "" || sep == some " ")

/-- A string all of whose characters are whitespace (the empty string
included); the spec's "whitespace-only". -/
def isWhitespaceOnly (s : String) : Bool :=
  s.data.all Char.isWhitespace

/-- The configuration validation sequence of `main`
(`align.py` lines 130-149): the message of the first failing check, `none`
when every check passes. -/
def validateConfig (cfg : AlignmentConfig) : Option String :=
  if cfg.model_path = none ∧ cfg.pretrained_name = none then
    some "Both cfg.model_path and cfg.pretrained_name cannot be None"
  else if cfg.model_path ≠ none ∧ cfg.pretrained_name ≠ none then
    some "One of cfg.model_path and cfg.pretrained_name must be None"
  else if cfg.manifest_filepath = none then
    some "cfg.manifest_filepath must be specified"
  else if cfg.output_dir = none then
    some "cfg.output_dir must be specified"
  else if cfg.batch_size < 1 then
    some "cfg.batch_size cannot be zero or a negative number"
  else if separatorCheckPasses cfg.additional_ctm_grouping_separator = false then
    some "cfg.additional_grouping_separator cannot be empty string or space character"
  else if cfg.minimum_timestamp_duration < 0 then
    some "cfg.minimum_timestamp_duration cannot be a negative number"
  else none

/-- One line of the input manifest, recording which of the fields consulted
by the pre-pass are present on that line. -/
structure ManifestLine where
  hasAudioFilepath : Bool
  hasText : Bool
  hasPredText : Bool
  deriving DecidableEq, Repr

/-- The manifest validation pre-pass of `main` (`align.py` lines 151-170):
`is_entry_in_all_lines` and `is_entry_in_any_lines` (missing from
`utils/data_prep.py`, modelled from the spec as "every line contains the
entry" and "some line contains the entry") combined exactly as `main`
combines them; the message of the first failing check, `none` when the
pre-pass passes. -/
def manifestValidationError (alignUsingPredText : Bool) (lines : List ManifestLine) :
    Option String :=
  if !(lines.all (fun l => l.hasAudioFilepath)) then
    some "At least one line does not contain an audio_filepath entry"
  else if alignUsingPredText then
    if lines.any (fun l => l.hasPredText) then
      some "Cannot specify align_using_pred_text=True when the manifest contains pred_text entries"
    else none
  else if !(lines.all (fun l => l.hasText)) then
    some "At least one line does not contain a text entry"
  else none

/-- The errors `main` can raise before the batch loop starts. -/
inductive MainError where
  | valueError (msg : String)
  | runtimeError (msg : String)
  | notImplementedError (msg : String)
  deriving DecidableEq, Repr

/-- Everything `main` consumes: the configuration, the manifest lines, the
loaded model's type (whether it is an `EncDecCTCModel`) and the decoding
batches. -/
structure MainInput where
  cfg : AlignmentConfig
  manifest : List ManifestLine
  modelIsEncDecCTC : Bool
  batches : List (List UttInput)

/-- The phase structure of `main` (`align.py`): configuration validation
(lines 130-149), then the manifest pre-pass (lines 151-170), then model
loading and the `EncDecCTCModel` instance check (lines 192-199), and only
then the batch loop (lines 226-256). -/
def mainRun (inp : MainInput) : Except MainError (List UttOutcome) :=
  match validateConfig inp.cfg with
  | some m => Except.error (MainError.valueError m)
  | none =>
      match manifestValidationError inp.cfg.align_using_pred_text inp.manifest with
      | some m => Except.error (MainError.runtimeError m)
      | none =>
          if inp.modelIsEncDecCTC = false then
            Except.error (MainError.notImplementedError
              "Model is not an instance of NeMo EncDecCTCModel")
          else
            Except.ok ((inp.batches.map processBatch).join)

/-- A configuration with neither a model path nor a pretrained name. -/
def cfgBothNone : AlignmentConfig :=
  ⟨none, none, some "m.json", some "out", false, none, none, 1, none, 0, 1,
    ["ctm"], ⟨false⟩, ⟨20, 20⟩⟩

/-- A configuration with both a model path and a pretrained name. -/
def cfgBothSome : AlignmentConfig :=
  ⟨some "p", some "mp", some "m.json", some "out", false, none, none, 1, none,
    0, 1, ["ctm"], ⟨false⟩, ⟨20, 20⟩⟩

/-- A configuration passing every check of `validateConfig`. -/
def cfgValid : AlignmentConfig :=
  ⟨none, some "mp", some "m.json", some "out", false, none, none, 1, none, 0,
    1, ["ctm"], ⟨false⟩, ⟨20, 20⟩⟩

/-- A manifest line carrying `audio_filepath` and `text` but no
`pred_text`. -/
def lineOk : ManifestLine := ⟨true, true, false⟩

/-- Counterexample to C6 as stated: the two-space separator is a non-empty
whitespace-only string, yet the separator check passes, and the whole
configuration validation accepts a configuration carrying it, so the run
starts. -/
theorem separator_whitespace_only_not_rejected :
    isWhitespaceOnly "  " = true ∧
    separatorCheckPasses (some "  ") = true ∧
    validateConfig ⟨none, some "mp", some "m.json", some "out", false, none,
      none, 1, some "  ", 0, 1, ["ctm"], ⟨false⟩, ⟨20, 20⟩⟩ = none := by
  refine ⟨?_, ?_, ?_⟩ <;> decide

/-- C6 amended: the configuration validation's separator check rejects
`additional_ctm_grouping_separator` exactly when it is the empty string or
the single-space string; every other value, whitespace-only strings such as
a tab or two spaces included, passes the check. -/
theorem separator_rejected_iff_empty_or_space (sep : Option String) :
    separatorCheckPasses sep = false ↔ (sep = some "" ∨ sep = some " ") := by
  simp only [separatorCheckPasses, Bool.not_eq_false', Bool.or_eq_true, beq_iff_eq]

/-- C7: the manifest pre-pass fails exactly when some line lacks
`audio_filepath`, or `align_using_pred_text` is false and some line lacks
`text`, or `align_using_pred_text` is true and some line already carries
`pred_text`; and when the configuration, the pre-pass and the model check
all pass, `main` reaches the batch loop and produces the decoded batches. -/
theorem manifest_pre_pass_error_iff :
    (∀ (apt : Bool) (lines : List ManifestLine),
      (manifestValidationError apt lines).isSome = true ↔
        ((∃ l ∈ lines, l.hasAudioFilepath = false) ∨
         (apt = false ∧ ∃ l ∈ lines, l.hasText = false) ∨
         (apt = true ∧ ∃ l ∈ lines, l.hasPredText = true))) ∧
    (∀ inp : MainInput,
      validateConfig inp.cfg = none →
      manifestValidationError inp.cfg.align_using_pred_text inp.manifest = none →
      inp.modelIsEncDecCTC = true →
      mainRun inp = Except.ok ((inp.batches.map processBatch).join)) := by
  constructor
  · intro apt lines
    cases apt <;>
      by_cases h1 : lines.all (fun l => l.hasAudioFilepath) <;>
        simp [manifestValidationError, h1, List.all_eq_true, List.any_eq_true] <;>
          aesop
  · intro inp hcfg hman hm
    simp [mainRun, hcfg, hman, hm]

/-- Witness for C7: a pred-text conflict is reported on a concrete
manifest, and a fully valid concrete input reaches the batch loop. -/
theorem manifest_pre_pass_error_iff_witness :
    ((manifestValidationError true [⟨true, true, true⟩]).isSome = true ↔
      ((∃ l ∈ [(⟨true, true, true⟩ : ManifestLine)], l.hasAudioFilepath = false) ∨
       (true = false ∧ ∃ l ∈ [(⟨true, true, true⟩ : ManifestLine)], l.hasText = false) ∨
       (true = true ∧ ∃ l ∈ [(⟨true, true, true⟩ : ManifestLine)], l.hasPredText = true))) ∧
    mainRun ⟨cfgValid, [lineOk], true, [[uttFits]]⟩
      = Except.ok (([[uttFits]].map processBatch).join) :=
  ⟨manifest_pre_pass_error_iff.1 true [⟨true, true, true⟩],
    manifest_pre_pass_error_iff.2 ⟨cfgValid, [lineOk], true, [[uttFits]]⟩
      (by decide) (by decide) rfl⟩

/-- C9: exactly one of `model_path` and `pretrained_name` must be given:
when both are absent, and likewise when both are present, `main` raises the
corresponding fatal ValueError — whatever the manifest, model and batches,
so before the model is loaded and before any line or batch is processed. -/
theorem model_source_exactly_one_required (inp : MainInput) :
    (inp.cfg.model_path = none ∧ inp.cfg.pretrained_name = none →
      mainRun inp = Except.error (MainError.valueError
        "Both cfg.model_path and cfg.pretrained_name cannot be None")) ∧
    (inp.cfg.model_path ≠ none ∧ inp.cfg.pretrained_name ≠ none →
      mainRun inp = Except.error (MainError.valueError
        "One of cfg.model_path and cfg.pretrained_name must be None")) := by
  constructor
  · intro h
    have hv : validateConfig inp.cfg
        = some "Both cfg.model_path and cfg.pretrained_name cannot be None" := by
      rw [validateConfig, if_pos h]
    simp [mainRun, hv]
  · intro h
    have hv : validateConfig inp.cfg
        = some "One of cfg.model_path and cfg.pretrained_name must be None" := by
      rw [validateConfig, if_neg (fun hc => h.1 hc.1), if_pos h]
    simp [mainRun, hv]

/-- Witness for C9 on two concrete configurations: both sources absent and
both sources present. -/
theorem model_source_exactly_one_required_witness :
    mainRun ⟨cfgBothNone, [lineOk], true, [[uttFits]]⟩
      = Except.error (MainError.valueError
        "Both cfg.model_path and cfg.pretrained_name cannot be None") ∧
    mainRun ⟨cfgBothSome, [lineOk], true, [[uttFits]]⟩
      = Except.error (MainError.valueError
        "One of cfg.model_path and cfg.pretrained_name must be None") :=
  ⟨(model_source_exactly_one_required ⟨cfgBothNone, [lineOk], true, [[uttFits]]⟩).1
      ⟨rfl, rfl⟩,
    (model_source_exactly_one_required ⟨cfgBothSome, [lineOk], true, [[uttFits]]⟩).2
      ⟨Option.some_ne_none _, Option.some_ne_none _⟩⟩

/-- C10: when the configuration and manifest checks pass but the loaded
model is not an `EncDecCTCModel`, `main` raises the fatal
NotImplementedError instead of processing any batch. -/
theorem non_ctc_model_rejected (inp : MainInput)
    (hcfg : validateConfig inp.cfg = none)
    (hman : manifestValidationError inp.cfg.align_using_pred_text inp.manifest = none)
    (hm : inp.modelIsEncDecCTC = false) :
    mainRun inp = Except.error (MainError.notImplementedError
      "Model is not an instance of NeMo EncDecCTCModel") := by
  simp [mainRun, hcfg, hman, hm]

/-- Witness for C10 on a concrete valid configuration with a non-CTC
model. -/
theorem non_ctc_model_rejected_witness :
    mainRun ⟨cfgValid, [lineOk], false, [[uttFits]]⟩
      = Except.error (MainError.notImplementedError
        "Model is not an instance of NeMo EncDecCTCModel") :=
  non_ctc_model_rejected ⟨cfgValid, [lineOk], false, [[uttFits]]⟩
    (by decide) (by decide) rfl

end NFA
